import Mathlib

/-!
Shallow embedding of the `speed-sleuth` provider layer:
`src/speed_sleuth/provider/__init__.py` (class `Provider`) and
`lib/provider/speedtest.py` (class `Speedtest`).

The code scripts a selenium driver.  We embed the control flow of the Python
methods exactly; the external world (the DOM, the selenium library calls) is
an oracle: each external call site is given its outcome — a value or a raised
exception — as data.  `WebDriverWait(...).until(cond)` is embedded as its
actual polling loop over a finite trace of condition outcomes (the trace
length is the number of polls that fit in the timeout).  `sys.exit` is a
distinct outcome (process termination), not an exception: the selenium
exceptions the code manipulates all derive from `Exception`, while
`SystemExit` does not, and no modeled call raises it.
-/

namespace SpeedSleuth

/-- Kinds of Python exceptions the embedded code can see.
`noSuchElement`, `elementNotInteractable`, `timeout` are the selenium
exception classes imported by the source; `attributeError` is the Python
`AttributeError` (read of a missing attribute, or of an attribute of `None`);
`otherError` stands for any other `Exception` subclass (e.g.
`WebDriverException`). -/
inductive ExcKind where
  | noSuchElement
  | elementNotInteractable
  | timeout
  | attributeError
  | otherError
deriving DecidableEq, Repr

/-- A raised Python exception: its class, and the class of its `__cause__`
when it was raised with `raise ... from e` (one level is all the code uses). -/
structure PyExc where
  kind : ExcKind
  causeKind : Option ExcKind
deriving DecidableEq, Repr

/-- The `AttributeError` value as raised by reading a missing attribute or an attribute
of `None`. -/
def attrErr : PyExc := ⟨ExcKind.attributeError, Option.none⟩

/-- The `NoSuchElementException` value as raised by `driver.find_element` when the
locator matches nothing. -/
def noSuchErr : PyExc := ⟨ExcKind.noSuchElement, Option.none⟩

/-- A DOM element handle (selenium `WebElement`).  As a Python object it is
always truthy. -/
structure Element where
  id : Nat
deriving DecidableEq, Repr

/-- The `self.driver` attribute of a provider instance.  In Python it is
either never assigned (`Provider.__init__` swallowed the `load_driver`
failure before the assignment happened: reading it raises `AttributeError`),
or assigned `None` (after `cleanup` released the session), or a live driver
handle (identified by a number). -/
inductive DriverAttr where
  | unset
  | null
  | live (d : Nat)
deriving DecidableEq, Repr

/-- The mutable state of a provider instance: just its `driver` attribute. -/
structure ProviderState where
  driver : DriverAttr
deriving DecidableEq, Repr

/-- Reading `self.driver`: raises `AttributeError` when the attribute was
never assigned, otherwise yields `none` (Python `None`) or the live handle. -/
def readDriver : DriverAttr → Except PyExc (Option Nat)
  | DriverAttr.unset => Except.error attrErr
  | DriverAttr.null => Except.ok Option.none
  | DriverAttr.live d => Except.ok (some d)

/-- Observable side effects of a run, in order. -/
inductive Ev where
  | clicked (e : Element)
  | screenshot (e : Element) (filename : String)
  | closed (d : Nat)
  | quitted (d : Nat)
  | cleanupCalled (errno : Int)
deriving DecidableEq, Repr

/-- Outcome of a method that may also terminate the process (`sys.exit`). -/
inductive Outcome (α : Type) where
  | ok (a : α)
  | exc (e : PyExc)
  | exited (code : Int)
deriving DecidableEq, Repr

/-! Section: the polling loop of `selenium.webdriver.support.ui.WebDriverWait`.

`WebDriverWait(driver, timeout, poll_frequency, ignored_exceptions).until(m)`
repeatedly evaluates `m`: a truthy value is returned; a falsy value, or an
exception whose class is in `ignored_exceptions`, means poll again; any other
exception propagates; when the timeout elapses `TimeoutException` is raised.
We embed one evaluation of the condition as `Except PyExc (Option α)`
(`some a` truthy with value `a`, `none` falsy) and the whole wait as a walk
over the finite trace of evaluations that fit in the timeout. -/

/-- The `until` polling loop over a finite trace of condition outcomes. -/
def pollUntil {α : Type} (ignored : List ExcKind) :
    List (Except PyExc (Option α)) → Except PyExc α
  | [] => Except.error ⟨ExcKind.timeout, Option.none⟩
  | step :: rest =>
    match step with
    | Except.ok (some a) => Except.ok a
    | Except.ok Option.none => pollUntil ignored rest
    | Except.error e =>
      if e.kind ∈ ignored then pollUntil ignored rest else Except.error e

/-- Default `ignored_exceptions` of `WebDriverWait`: `NoSuchElementException`
only. -/
def defaultIgnored : List ExcKind := [ExcKind.noSuchElement]

/-- The `ignored_exceptions` list built in `Provider.wait_to_be_visible`:
`[NoSuchElementException, ElementNotInteractableException]`. -/
def visibilityIgnored : List ExcKind :=
  [ExcKind.noSuchElement, ExcKind.elementNotInteractable]

/-- Default `timeout` argument of `wait_to_be_visible` (seconds). -/
def waitVisibleDefaultTimeout : Nat := 90

/-- The fixed `poll_frequency` passed by `wait_to_be_visible`, in
milliseconds (the source writes `0.2` seconds). -/
def waitVisiblePollIntervalMs : Nat := 200

/-- Default `timeout` argument of `wait_for_element` (seconds). -/
def waitForElementDefaultTimeout : Nat := 120

/-- Default `timeout` argument of `wait_for_button_clickable` (seconds). -/
def waitForButtonClickableDefaultTimeout : Nat := 120

/-! Section: the `Provider` methods. -/

/-- Embeds `Provider.__init__(self, browser)`:
```
try:
    self.driver = browser.load_driver()
except Exception as e:
    print("browser.load_driver() exception: ", e)
```
`loadDriver` is the outcome of the `browser.load_driver()` call.  On failure
the exception is caught and only printed: the constructor returns normally
and `self.driver` was never assigned. -/
def providerInit (loadDriver : Except PyExc Nat) : Except PyExc ProviderState :=
  match loadDriver with
  | Except.ok d => Except.ok ⟨DriverAttr.live d⟩
  | Except.error _ => Except.ok ⟨DriverAttr.unset⟩

/-- Embeds `Provider.wait_to_be_visible(self, element, timeout=90)`:
```
try:
    wait = WebDriverWait(self.driver, timeout=timeout, poll_frequency=0.2,
                         ignored_exceptions=[NoSuchElementException,
                                             ElementNotInteractableException])
    res = wait.until(lambda d: element.is_displayed() or False)
    print(f"res: ...")
    return True
except TimeoutException as e: ... return False
except Exception as e: ... return False
```
The read of `self.driver` happens inside the `try` (building the wait), so
even an `AttributeError` from an unset attribute is caught and the method
returns `False`.  The condition ignores its driver argument and evaluates
`element.is_displayed() or False`, embedded as one trace entry of type
`Except PyExc (Option Unit)` (`some ()` when displayed). -/
def wait_to_be_visible (st : ProviderState)
    (polls : List (Except PyExc (Option Unit))) : Except PyExc Bool :=
  let attempt : Except PyExc Unit :=
    match readDriver st.driver with
    | Except.error e => Except.error e
    | Except.ok _ => pollUntil visibilityIgnored polls
  match attempt with
  | Except.ok _ => Except.ok true
  | Except.error e =>
    if e.kind = ExcKind.timeout then Except.ok false else Except.ok false

/-- Embeds `Provider.wait_for_element(self, locator, timeout=120)`:
```
try:
    element = WebDriverWait(self.driver, timeout).until(
        EC.visibility_of_element_located(locator))
    return element
except TimeoutException as e:
    raise NoSuchElementException(
        f"Element ... was not visible after ... second") from e
```
The wait uses the default ignored list (`NoSuchElementException`).  When
`self.driver` is `None`, the first `driver.find_element` of the condition raises
`AttributeError`, which is not ignored and not a `TimeoutException`, so it
propagates. -/
def wait_for_element (st : ProviderState)
    (polls : List (Except PyExc (Option Element))) : Except PyExc Element :=
  match readDriver st.driver with
  | Except.error e => Except.error e
  | Except.ok Option.none => Except.error attrErr
  | Except.ok (some _) =>
    match pollUntil defaultIgnored polls with
    | Except.ok el => Except.ok el
    | Except.error e =>
      if e.kind = ExcKind.timeout then
        Except.error ⟨ExcKind.noSuchElement, some ExcKind.timeout⟩
      else Except.error e

/-- Embeds `Provider.wait_for_button_clickable(self, locator, timeout=120)`: same
shape as `wait_for_element` with `EC.element_to_be_clickable`. -/
def wait_for_button_clickable (st : ProviderState)
    (polls : List (Except PyExc (Option Element))) : Except PyExc Element :=
  match readDriver st.driver with
  | Except.error e => Except.error e
  | Except.ok Option.none => Except.error attrErr
  | Except.ok (some _) =>
    match pollUntil defaultIgnored polls with
    | Except.ok el => Except.ok el
    | Except.error e =>
      if e.kind = ExcKind.timeout then
        Except.error ⟨ExcKind.noSuchElement, some ExcKind.timeout⟩
      else Except.error e

/-- Embeds `Provider.cleanup(self, errno=0)`:
```
if self.driver:
    self.driver.close()
    self.driver.quit()
    self.driver = None
if errno:
    sys.exit(errno)
```
Reading `self.driver` raises `AttributeError` when the attribute was never
assigned; `None` is falsy so the release is skipped; a live handle is closed,
quit and the attribute set to `None`.  `sys.exit(errno)` for nonzero `errno`
terminates the process.  The event trace records the call itself and the
release steps. -/
def cleanup (st : ProviderState) (errno : Int) :
    Outcome Unit × ProviderState × List Ev :=
  match readDriver st.driver with
  | Except.error e => (Outcome.exc e, st, [Ev.cleanupCalled errno])
  | Except.ok Option.none =>
    if errno ≠ 0 then (Outcome.exited errno, st, [Ev.cleanupCalled errno])
    else (Outcome.ok (), st, [Ev.cleanupCalled errno])
  | Except.ok (some d) =>
    let st2 : ProviderState := ⟨DriverAttr.null⟩
    let evs := [Ev.cleanupCalled errno, Ev.closed d, Ev.quitted d]
    if errno ≠ 0 then (Outcome.exited errno, st2, evs)
    else (Outcome.ok (), st2, evs)

/-! Section: the `Speedtest` class (lib/provider/speedtest.py).

The concrete provider drives fixed page elements of speedtest.net.  The
outcome of every external call site in its methods is supplied by a `World`
value. -/

/-- One possible world for a `Speedtest` interaction: the outcome of each
external (selenium) call site in the methods of the class. -/
structure World where
  /-- Outcome of `self.driver.get("https://www.speedtest.net/")` in `__init__`. -/
  getPage : Except PyExc Unit
  /-- Outcome of `self.driver.find_element(By.CSS_SELECTOR, "button#onetrust-reject-all-handler")`
  in `setup`. -/
  eulaFind : Except PyExc Element
  /-- Outcome of `eula_reject_btn.click()` in `setup`. -/
  eulaClick : Except PyExc Unit
  /-- Outcome of `self.driver.find_element(By.CSS_SELECTOR, "a.notification-dismiss")`
  in `dismiss_notification`. -/
  dismissFind : Except PyExc Element
  /-- Condition trace of `self.wait_to_be_visible(dismiss_btn)`. -/
  dismissPolls : List (Except PyExc (Option Unit))
  /-- Outcome of `dismiss_btn.click()` in `dismiss_notification`. -/
  dismissClick : Except PyExc Unit
  /-- Condition trace of `self.wait_for_button_clickable((By.CSS_SELECTOR,
  "#container div.start-button > a"))` in `run`. -/
  startPolls : List (Except PyExc (Option Element))
  /-- Outcome of `start_test_btn.click()` in `run`. -/
  startClick : Except PyExc Unit
  /-- Condition trace of `self.wait_for_element((By.CSS_SELECTOR,
  "div.result-container-speed.result-container-speed-active"))` in `run`. -/
  resultsPolls : List (Except PyExc (Option Element))
  /-- Outcome of `results.screenshot(filename)` in `run`. -/
  screenshotCall : Except PyExc Unit

/-- Embeds `Speedtest.__init__(self, browser)`:
```
super().__init__(browser)
self.driver.get("https://www.speedtest.net/")
```
After `Provider.__init__` swallowed a `load_driver` failure, `self.driver`
is unset and the `get` dereference raises `AttributeError` out of the
constructor. -/
def speedtestInit (loadDriver : Except PyExc Nat) (w : World) :
    Except PyExc ProviderState :=
  match providerInit loadDriver with
  | Except.error e => Except.error e
  | Except.ok st =>
    match readDriver st.driver with
    | Except.error e => Except.error e
    | Except.ok Option.none => Except.error attrErr
    | Except.ok (some _) =>
      match w.getPage with
      | Except.error e => Except.error e
      | Except.ok _ => Except.ok st

/-- Embeds `Speedtest.setup(self)`:
```
try:
    eula_reject_btn = self.driver.find_element(
        By.CSS_SELECTOR, "button#onetrust-reject-all-handler")
    if eula_reject_btn:
        eula_reject_btn.click()
except NoSuchElementException:
    pass
```
A `WebElement` is always truthy, so a found button is always clicked.  Only
`NoSuchElementException` is caught; anything else (an `AttributeError` from a
missing or `None` driver, an `ElementNotInteractableException` from the
click) propagates.  The method assigns no attribute, so the state is
returned unchanged on every path. -/
def setupBody (st : ProviderState) (w : World) : Except PyExc Unit × List Ev :=
  match readDriver st.driver with
  | Except.error e => (Except.error e, [])
  | Except.ok Option.none => (Except.error attrErr, [])
  | Except.ok (some _) =>
    match w.eulaFind with
    | Except.error e => (Except.error e, [])
    | Except.ok btn => (w.eulaClick, [Ev.clicked btn])

/-- The `except NoSuchElementException: pass` handler: it swallows exactly
that class and re-raises everything else. -/
def catchNoSuch : Except PyExc Unit → Except PyExc Unit
  | Except.ok _ => Except.ok ()
  | Except.error e =>
    if e.kind = ExcKind.noSuchElement then Except.ok () else Except.error e

def setup (st : ProviderState) (w : World) :
    Except PyExc Unit × ProviderState × List Ev :=
  (catchNoSuch (setupBody st w).1, st, (setupBody st w).2)

/-- Embeds `Speedtest.dismiss_notification(self)`:
```
try:
    dismiss_btn = self.driver.find_element(By.CSS_SELECTOR,
                                           "a.notification-dismiss")
    self.wait_to_be_visible(dismiss_btn)
    if dismiss_btn:
        print("dismissing notifcation...")
        dismiss_btn.click()
except NoSuchElementException:
    pass
```
The boolean result of `wait_to_be_visible` is discarded, and `dismiss_btn`
(a `WebElement`) is always truthy, so a found button is clicked whether or
not it became visible. -/
def dismissBody (st : ProviderState) (w : World) : Except PyExc Unit × List Ev :=
  match readDriver st.driver with
  | Except.error e => (Except.error e, [])
  | Except.ok Option.none => (Except.error attrErr, [])
  | Except.ok (some _) =>
    match w.dismissFind with
    | Except.error e => (Except.error e, [])
    | Except.ok btn =>
      match wait_to_be_visible st w.dismissPolls with
      | Except.error e => (Except.error e, [])
      | Except.ok _ => (w.dismissClick, [Ev.clicked btn])

def dismiss_notification (st : ProviderState) (w : World) :
    Except PyExc Unit × ProviderState × List Ev :=
  (catchNoSuch (dismissBody st w).1, st, (dismissBody st w).2)

/-- The `try` block of `Speedtest.run`: `setup`, `dismiss_notification`,
wait for and click the start button, wait for the results element, and if
found, screenshot it to `filename`.  The screenshot event is recorded when
the `screenshot` call succeeds (that is when the file is written). -/
def runTryBlock (st : ProviderState) (w : World) (filename : String) :
    Except PyExc Unit × List Ev :=
  let evs1 := (setup st w).2.2
  match (setup st w).1 with
  | Except.error e => (Except.error e, evs1)
  | Except.ok _ =>
    let evs2 := (dismiss_notification st w).2.2
    match (dismiss_notification st w).1 with
    | Except.error e => (Except.error e, evs1 ++ evs2)
    | Except.ok _ =>
      match wait_for_button_clickable st w.startPolls with
      | Except.error e => (Except.error e, evs1 ++ evs2)
      | Except.ok startBtn =>
        let evs3 := evs1 ++ evs2 ++ [Ev.clicked startBtn]
        match w.startClick with
        | Except.error e => (Except.error e, evs3)
        | Except.ok _ =>
          match wait_for_element st w.resultsPolls with
          | Except.error e => (Except.error e, evs3)
          | Except.ok results =>
            match w.screenshotCall with
            | Except.error e => (Except.error e, evs3)
            | Except.ok _ =>
              (Except.ok (), evs3 ++ [Ev.screenshot results filename])

/-- Embeds `Speedtest.run(self, filename="speedtest-result.png")`:
```
code = 0
try:
    ... interaction sequence ...
except ElementNotInteractableException as e:
    print(...); code = -1
except Exception as e:
    print(...); traceback.print_exc(); code = -1
finally:
    self.cleanup(code)
```
Every modeled exception kind derives from `Exception`, so every failure of
the `try` block is caught by one of the two handlers and turned into
`code = -1`; the `finally` clause then calls `cleanup(code)`, whose outcome
(normal return, `sys.exit`, or an `AttributeError` of its own) is the
outcome of `run`.  `exitCodeOf` is the value of `code` after the handlers:
`0` when the `try` block completed, `-1` from the
`ElementNotInteractableException` handler, `-1` from the catch-all
`except Exception` handler. -/
def exitCodeOf : Except PyExc Unit → Int
  | Except.ok _ => 0
  | Except.error e =>
    if e.kind = ExcKind.elementNotInteractable then -1 else -1

def run (st : ProviderState) (w : World) (filename : String) :
    Outcome Unit × ProviderState × List Ev :=
  let tryRes := runTryBlock st w filename
  let cl := cleanup st (exitCodeOf tryRes.1)
  (cl.1, cl.2.1, tryRes.2 ++ cl.2.2)

/-- Default `filename` argument of `Speedtest.run`. -/
def runDefaultFilename : String := "speedtest-result.png"

/-- Whether an event is a call to `Provider.cleanup`. -/
def Ev.isCleanupCall : Ev → Bool
  | Ev.cleanupCalled _ => true
  | _ => false

/-- Whether an event is a screenshot (a result file being written). -/
def Ev.isShot : Ev → Bool
  | Ev.screenshot _ _ => true
  | _ => false

/-- Whether an event releases the driver session (a `close` or `quit` call on
the handle). -/
def Ev.isRelease : Ev → Bool
  | Ev.closed _ => true
  | Ev.quitted _ => true
  | _ => false

/-- Whether an outcome is an escaped Python exception. -/
def Outcome.isExc {α : Type} : Outcome α → Bool
  | Outcome.exc _ => true
  | _ => false

/-- A provider state holding a live driver handle, for concrete instances. -/
def stLive1 : ProviderState := ⟨DriverAttr.live 1⟩

/-- A fully nominal world: every element is found at the first poll and every
call succeeds. -/
def wNominal : World where
  getPage := Except.ok ()
  eulaFind := Except.ok ⟨11⟩
  eulaClick := Except.ok ()
  dismissFind := Except.ok ⟨12⟩
  dismissPolls := [Except.ok (some ())]
  dismissClick := Except.ok ()
  startPolls := [Except.ok (some ⟨13⟩)]
  startClick := Except.ok ()
  resultsPolls := [Except.ok Option.none, Except.ok (some ⟨14⟩)]
  screenshotCall := Except.ok ()

/-- World `wNominal` except that the results element never becomes visible: its
poll trace runs out without a truthy observation. -/
def wNoResults : World := { wNominal with resultsPolls := [] }

/-- World `wNominal` except that the consent-modal control is absent: the `setup`
lookup raises `NoSuchElementException`. -/
def wEulaAbsent : World := { wNominal with eulaFind := Except.error noSuchErr }

/-- World `wNominal` except that the notification-dismiss control never becomes
visible: the `wait_to_be_visible` poll trace runs out. -/
def wDismissNeverVisible : World := { wNominal with dismissPolls := [] }

/-! Section: helper lemmas about the embedded operations. -/

/-- The only events `setup` can emit are clicks. -/
theorem setupBody_evs (st : ProviderState) (w : World) :
    ∀ ev ∈ (setupBody st w).2, ∃ b, ev = Ev.clicked b := by
  intro ev hev
  obtain ⟨dr⟩ := st
  cases dr with
  | unset => simp [setupBody, readDriver] at hev
  | null => simp [setupBody, readDriver] at hev
  | live d =>
    cases hef : w.eulaFind with
    | error e => simp [setupBody, readDriver, hef] at hev
    | ok btn =>
      simp [setupBody, readDriver, hef] at hev
      exact ⟨btn, hev⟩

/-- The only events `dismiss_notification` can emit are clicks. -/
theorem dismissBody_evs (st : ProviderState) (w : World) :
    ∀ ev ∈ (dismissBody st w).2, ∃ b, ev = Ev.clicked b := by
  intro ev hev
  obtain ⟨dr⟩ := st
  cases dr with
  | unset => simp [dismissBody, readDriver] at hev
  | null => simp [dismissBody, readDriver] at hev
  | live d =>
    cases hef : w.dismissFind with
    | error e => simp [dismissBody, readDriver, hef] at hev
    | ok btn =>
      cases hw : wait_to_be_visible ⟨DriverAttr.live d⟩ w.dismissPolls with
      | error e => simp [dismissBody, readDriver, hef, hw] at hev
      | ok b =>
        simp [dismissBody, readDriver, hef, hw] at hev
        exact ⟨btn, hev⟩

/-- If no poll step observes a truthy condition, the wait loop fails. -/
theorem pollUntil_no_truthy {α : Type} (ign : List ExcKind)
    (polls : List (Except PyExc (Option α)))
    (h : ∀ s ∈ polls, ∀ a, s ≠ Except.ok (some a)) :
    ∃ e, pollUntil ign polls = Except.error e := by
  induction polls with
  | nil => exact ⟨_, rfl⟩
  | cons s rest ih =>
    have hrest : ∀ s2 ∈ rest, ∀ a, s2 ≠ Except.ok (some a) :=
      fun s2 hs2 => h s2 (List.mem_cons_of_mem _ hs2)
    cases s with
    | ok v =>
      cases v with
      | none => simpa [pollUntil] using ih hrest
      | some a => exact absurd rfl (h _ (List.mem_cons_self _ _) a)
    | error e =>
      by_cases hm : e.kind ∈ ign
      · simpa [pollUntil, hm] using ih hrest
      · exact ⟨e, by simp [pollUntil, hm]⟩

/-- Under nominal DOM observations (each poll either returns a condition
value or raises `NoSuchElementException`), a truthy observation somewhere in
the trace makes the default-ignore wait loop succeed. -/
theorem pollUntil_nominal_ok {α : Type} (polls : List (Except PyExc (Option α)))
    (h : ∀ s ∈ polls, (∃ v, s = Except.ok v) ∨
      ∃ e, s = Except.error e ∧ e.kind = ExcKind.noSuchElement)
    (ht : ∃ s ∈ polls, ∃ a, s = Except.ok (some a)) :
    ∃ a, pollUntil defaultIgnored polls = Except.ok a := by
  induction polls with
  | nil => simp at ht
  | cons s rest ih =>
    have hrest : ∀ s2 ∈ rest, (∃ v, s2 = Except.ok v) ∨
        ∃ e, s2 = Except.error e ∧ e.kind = ExcKind.noSuchElement :=
      fun s2 hs2 => h s2 (List.mem_cons_of_mem _ hs2)
    rcases h s (List.mem_cons_self _ _) with ⟨v, hv⟩ | ⟨e, he, hk⟩
    · subst hv
      cases v with
      | some a => exact ⟨a, by simp [pollUntil]⟩
      | none =>
        have ht2 : ∃ s2 ∈ rest, ∃ a, s2 = Except.ok (some a) := by
          rcases ht with ⟨s2, hmem, a, hs2⟩
          rcases List.mem_cons.mp hmem with hfst | hmem2
          · rw [hfst] at hs2
            simp at hs2
          · exact ⟨s2, hmem2, a, hs2⟩
        simpa [pollUntil] using ih hrest ht2
    · subst he
      have hm : e.kind ∈ defaultIgnored := by simp [defaultIgnored, hk]
      have ht2 : ∃ s2 ∈ rest, ∃ a, s2 = Except.ok (some a) := by
        rcases ht with ⟨s2, hmem, a, hs2⟩
        rcases List.mem_cons.mp hmem with hfst | hmem2
        · rw [hfst] at hs2
          simp at hs2
        · exact ⟨s2, hmem2, a, hs2⟩
      simpa [pollUntil, hm] using ih hrest ht2

/-- Under nominal DOM observations, if no poll is truthy the default-ignore
wait loop raises precisely the timeout. -/
theorem pollUntil_nominal_timeout {α : Type}
    (polls : List (Except PyExc (Option α)))
    (h : ∀ s ∈ polls, (∃ v, s = Except.ok v) ∨
      ∃ e, s = Except.error e ∧ e.kind = ExcKind.noSuchElement)
    (hno : ∀ s ∈ polls, ∀ a, s ≠ Except.ok (some a)) :
    pollUntil defaultIgnored polls = Except.error ⟨ExcKind.timeout, Option.none⟩ := by
  induction polls with
  | nil => rfl
  | cons s rest ih =>
    have hrest : ∀ s2 ∈ rest, (∃ v, s2 = Except.ok v) ∨
        ∃ e, s2 = Except.error e ∧ e.kind = ExcKind.noSuchElement :=
      fun s2 hs2 => h s2 (List.mem_cons_of_mem _ hs2)
    have hnorest : ∀ s2 ∈ rest, ∀ a, s2 ≠ Except.ok (some a) :=
      fun s2 hs2 => hno s2 (List.mem_cons_of_mem _ hs2)
    rcases h s (List.mem_cons_self _ _) with ⟨v, hv⟩ | ⟨e, he, hk⟩
    · subst hv
      cases v with
      | some a => exact absurd rfl (hno _ (List.mem_cons_self _ _) a)
      | none => simpa [pollUntil] using ih hrest hnorest
    · subst he
      have hm : e.kind ∈ defaultIgnored := by simp [defaultIgnored, hk]
      simpa [pollUntil, hm] using ih hrest hnorest

/-- With a driver attribute that is assigned, `cleanup` never raises. -/
theorem cleanup_isExc (st : ProviderState) (errno : Int)
    (h : st.driver ≠ DriverAttr.unset) :
    Outcome.isExc (cleanup st errno).1 = false := by
  obtain ⟨dr⟩ := st
  cases dr with
  | unset => exact absurd rfl h
  | null =>
    by_cases h0 : errno ≠ 0 <;>
      simp [cleanup, readDriver, h0, Outcome.isExc]
  | live d =>
    by_cases h0 : errno ≠ 0 <;>
      simp [cleanup, readDriver, h0, Outcome.isExc]

/-- Every call to `cleanup` records itself exactly once in the event trace. -/
theorem cleanup_count (st : ProviderState) (errno : Int) :
    ((cleanup st errno).2.2).countP Ev.isCleanupCall = 1 := by
  obtain ⟨dr⟩ := st
  cases dr with
  | unset => simp [cleanup, readDriver, Ev.isCleanupCall]
  | null =>
    by_cases h0 : errno ≠ 0 <;>
      simp [cleanup, readDriver, h0, Ev.isCleanupCall]
  | live d =>
    by_cases h0 : errno ≠ 0 <;>
      simp [cleanup, readDriver, h0, Ev.isCleanupCall]

/-- The `try` block of `run` never records a cleanup call: clicks and
screenshots only. -/
theorem runTry_evs (st : ProviderState) (w : World) (fn : String) :
    ∀ ev ∈ (runTryBlock st w fn).2, Ev.isCleanupCall ev = false := by
  intro ev hev
  have hsu := setupBody_evs st w
  have hdi := dismissBody_evs st w
  have hclick : ∀ b : Element, Ev.isCleanupCall (Ev.clicked b) = false :=
    fun b => rfl
  have hsu2 : ∀ ev2 ∈ (setup st w).2.2, Ev.isCleanupCall ev2 = false := by
    intro ev2 h2
    obtain ⟨b, rfl⟩ := hsu ev2 h2
    rfl
  have hdi2 : ∀ ev2 ∈ (dismiss_notification st w).2.2,
      Ev.isCleanupCall ev2 = false := by
    intro ev2 h2
    obtain ⟨b, rfl⟩ := hdi ev2 h2
    rfl
  unfold runTryBlock at hev
  cases h1 : (setup st w).1 with
  | error e =>
    rw [h1] at hev
    exact hsu2 ev hev
  | ok u =>
    rw [h1] at hev
    cases h2 : (dismiss_notification st w).1 with
    | error e =>
      rw [h2] at hev
      rcases List.mem_append.mp hev with hm | hm
      · exact hsu2 ev hm
      · exact hdi2 ev hm
    | ok u2 =>
      rw [h2] at hev
      cases h3 : wait_for_button_clickable st w.startPolls with
      | error e =>
        rw [h3] at hev
        rcases List.mem_append.mp hev with hm | hm
        · exact hsu2 ev hm
        · exact hdi2 ev hm
      | ok startBtn =>
        rw [h3] at hev
        have hevs3 : ∀ ev2 ∈ (setup st w).2.2 ++ (dismiss_notification st w).2.2
            ++ [Ev.clicked startBtn], Ev.isCleanupCall ev2 = false := by
          intro ev2 h4
          rcases List.mem_append.mp h4 with h5 | h5
          · rcases List.mem_append.mp h5 with h6 | h6
            · exact hsu2 ev2 h6
            · exact hdi2 ev2 h6
          · rcases List.mem_singleton.mp h5 with rfl
            rfl
        cases h4 : w.startClick with
        | error e =>
          rw [h4] at hev
          exact hevs3 ev hev
        | ok u3 =>
          rw [h4] at hev
          cases h5 : wait_for_element st w.resultsPolls with
          | error e =>
            rw [h5] at hev
            exact hevs3 ev hev
          | ok results =>
            rw [h5] at hev
            cases h6 : w.screenshotCall with
            | error e =>
              rw [h6] at hev
              exact hevs3 ev hev
            | ok u4 =>
              rw [h6] at hev
              rcases List.mem_append.mp hev with hm | hm
              · exact hevs3 ev hm
              · rcases List.mem_singleton.mp hm with rfl
                rfl

/-! Section: the claims. -/

/-- C9: if `browser.load_driver()` raised during construction, the driver
attribute is never assigned at all (the constructor swallows the exception
before the assignment), so every subsequent read of it raises
`AttributeError` rather than taking a handled error path: the non-null guard
of `cleanup` raises, and the immediate page navigation in the `Speedtest`
constructor raises. -/
theorem spec_C9_unset_attribute_raises :
    ∀ (e : PyExc) (errno : Int) (w : World),
      providerInit (Except.error e) = Except.ok ⟨DriverAttr.unset⟩ ∧
      (cleanup ⟨DriverAttr.unset⟩ errno).1 = Outcome.exc attrErr ∧
      speedtestInit (Except.error e) w = Except.error attrErr := by
  intro e errno w
  exact ⟨rfl, rfl, rfl⟩

/-- C2, counterexample: the claim extends the no-raise guarantee to the
construction of the concrete `Speedtest` provider, but with a browser whose
`load_driver` raises, `Speedtest.__init__` raises `AttributeError` from
`self.driver.get(...)` instead of completing. -/
theorem spec_C2_counterexample :
    speedtestInit (Except.error ⟨ExcKind.otherError, Option.none⟩) wNominal
      = Except.error attrErr := rfl

/-- C2, amended: for every browser collaborator whose `load_driver()` raises,
the base `Provider` constructor does not raise and leaves the driver handle
unset; the concrete `Speedtest` constructor, however, raises
`AttributeError`, because it immediately dereferences the unset handle to
navigate to the page. -/
theorem spec_C2_provider_init_no_raise :
    ∀ (e : PyExc) (w : World),
      providerInit (Except.error e) = Except.ok ⟨DriverAttr.unset⟩ ∧
      speedtestInit (Except.error e) w = Except.error attrErr := by
  intro e w
  exact ⟨rfl, rfl⟩

/-- C3, counterexample: on a provider instance whose construction swallowed a
`load_driver` failure (a reachable state: `providerInit` returns it), both
consecutive `cleanup` calls raise `AttributeError`, so "the second call never
raises" fails. -/
theorem spec_C3_counterexample :
    providerInit (Except.error ⟨ExcKind.otherError, Option.none⟩)
        = Except.ok ⟨DriverAttr.unset⟩ ∧
    (cleanup ⟨DriverAttr.unset⟩ 0).1 = Outcome.exc attrErr ∧
    (cleanup (cleanup ⟨DriverAttr.unset⟩ 0).2.1 0).1 = Outcome.exc attrErr :=
  ⟨rfl, rfl, rfl⟩

/-- C3, amended: on every provider instance whose driver attribute has been
assigned (every instance except those whose browser failed to launch), for
every pair of consecutive calls `cleanup(0); cleanup(e2)` (the first call
must return, hence its argument is zero), the first call returns normally
and the second call never raises and performs no release of the
already-released handle: the release is guarded by the non-null check, and
the handle was cleared by the first call. -/
theorem spec_C3_cleanup_idempotent :
    ∀ (st : ProviderState) (e2 : Int),
      st.driver ≠ DriverAttr.unset →
      (cleanup st 0).1 = Outcome.ok () ∧
      Outcome.isExc (cleanup (cleanup st 0).2.1 e2).1 = false ∧
      ((cleanup (cleanup st 0).2.1 e2).2.2).countP Ev.isRelease = 0 := by
  intro st e2 h
  obtain ⟨dr⟩ := st
  cases dr with
  | unset => exact absurd rfl h
  | null =>
    have h1 : cleanup ⟨DriverAttr.null⟩ 0
        = (Outcome.ok (), ⟨DriverAttr.null⟩, [Ev.cleanupCalled 0]) := by
      simp [cleanup, readDriver]
    rw [h1]
    by_cases h0 : e2 ≠ 0 <;>
      simp [cleanup, readDriver, h0, Outcome.isExc, Ev.isRelease]
  | live d =>
    have h1 : cleanup ⟨DriverAttr.live d⟩ 0
        = (Outcome.ok (), ⟨DriverAttr.null⟩,
            [Ev.cleanupCalled 0, Ev.closed d, Ev.quitted d]) := by
      simp [cleanup, readDriver]
    rw [h1]
    by_cases h0 : e2 ≠ 0 <;>
      simp [cleanup, readDriver, h0, Outcome.isExc, Ev.isRelease]

/-- C3, witness: the amended idempotence at a concrete instance (live handle
5, second call with exit code -1). -/
theorem spec_C3_cleanup_idempotent_witness :
    (cleanup ⟨DriverAttr.live 5⟩ 0).1 = Outcome.ok () ∧
    Outcome.isExc (cleanup (cleanup ⟨DriverAttr.live 5⟩ 0).2.1 (-1)).1 = false ∧
    ((cleanup (cleanup ⟨DriverAttr.live 5⟩ 0).2.1 (-1)).2.2).countP
        Ev.isRelease = 0 :=
  spec_C3_cleanup_idempotent ⟨DriverAttr.live 5⟩ (-1) (by decide)

/-- C8: for every provider state holding a live driver and every world in
which the consent-modal control is absent (its lookup raises
`NoSuchElementException`), `setup` completes without raising, leaves the
provider state unchanged, and performs no action. -/
theorem spec_C8_setup_absent_silent :
    ∀ (st : ProviderState) (w : World) (d : Nat) (e : PyExc),
      st.driver = DriverAttr.live d →
      w.eulaFind = Except.error e →
      e.kind = ExcKind.noSuchElement →
      setup st w = (Except.ok (), st, []) := by
  intro st w d e hd he hk
  obtain ⟨dr⟩ := st
  simp only [ProviderState.mk.injEq] at hd
  subst hd
  simp [setup, setupBody, readDriver, catchNoSuch, he, hk]

/-- C8, witness: `setup` at a live instance in the absent-consent world. -/
theorem spec_C8_setup_absent_silent_witness :
    setup stLive1 wEulaAbsent = (Except.ok (), stLive1, []) :=
  spec_C8_setup_absent_silent stLive1 wEulaAbsent 1 noSuchErr rfl rfl rfl

/-- C10: in `dismiss_notification`, when the notification-dismiss control is
found, the click is performed regardless of the boolean result of the
visibility wait: even when `wait_to_be_visible` returns `False`, the control
is still clicked (the result is discarded and the `if` tests the always-truthy
element instead). -/
theorem spec_C10_dismiss_clicks_when_invisible :
    ∀ (st : ProviderState) (w : World) (d : Nat) (btn : Element),
      st.driver = DriverAttr.live d →
      w.dismissFind = Except.ok btn →
      wait_to_be_visible st w.dismissPolls = Except.ok false →
      Ev.clicked btn ∈ (dismiss_notification st w).2.2 := by
  intro st w d btn hd hf hw
  obtain ⟨dr⟩ := st
  simp only [ProviderState.mk.injEq] at hd
  subst hd
  simp [dismiss_notification, dismissBody, readDriver, hf, hw]

/-- C10, witness: the dismiss control found but never visible (empty poll
trace, so the wait returns `False`) is still clicked. -/
theorem spec_C10_dismiss_clicks_when_invisible_witness :
    Ev.clicked ⟨12⟩ ∈ (dismiss_notification stLive1 wDismissNeverVisible).2.2 :=
  spec_C10_dismiss_clicks_when_invisible stLive1 wDismissNeverVisible 1 ⟨12⟩
    rfl rfl rfl

/-- C7: `wait_to_be_visible` never raises: it is a total function into the
booleans (default timeout 90 s, fixed 0.2 s poll interval).  On an instance
with an assigned driver it returns `True` exactly when the poll loop observes
the element visible within the trace, hence `False` when the poll loop times
out; and the library-specific not-found and not-interactable conditions are
continue-polling, not failures, for its poll loop. -/
theorem spec_C7_wait_visible_never_raises :
    waitVisibleDefaultTimeout = 90 ∧ waitVisiblePollIntervalMs = 200 ∧
    (∀ (st : ProviderState) (polls : List (Except PyExc (Option Unit))),
      (wait_to_be_visible st polls = Except.ok true ∨
        wait_to_be_visible st polls = Except.ok false) ∧
      (st.driver ≠ DriverAttr.unset →
        (wait_to_be_visible st polls = Except.ok true ↔
          pollUntil visibilityIgnored polls = Except.ok ()))) ∧
    (∀ (e : PyExc) (rest : List (Except PyExc (Option Unit))),
      e.kind ∈ visibilityIgnored →
      pollUntil visibilityIgnored (Except.error e :: rest) =
        pollUntil visibilityIgnored rest) := by
  refine ⟨rfl, rfl, ?_, ?_⟩
  · intro st polls
    obtain ⟨dr⟩ := st
    constructor
    · cases dr with
      | unset => right; rfl
      | null =>
        cases hp : pollUntil visibilityIgnored polls with
        | ok u => left; simp [wait_to_be_visible, readDriver, hp]
        | error e =>
          right
          by_cases hk : e.kind = ExcKind.timeout <;>
            simp [wait_to_be_visible, readDriver, hp, hk]
      | live d =>
        cases hp : pollUntil visibilityIgnored polls with
        | ok u => left; simp [wait_to_be_visible, readDriver, hp]
        | error e =>
          right
          by_cases hk : e.kind = ExcKind.timeout <;>
            simp [wait_to_be_visible, readDriver, hp, hk]
    · intro hne
      cases dr with
      | unset => exact absurd rfl hne
      | null =>
        cases hp : pollUntil visibilityIgnored polls with
        | ok u => simp [wait_to_be_visible, readDriver, hp]
        | error e =>
          by_cases hk : e.kind = ExcKind.timeout <;>
            simp [wait_to_be_visible, readDriver, hp, hk]
      | live d =>
        cases hp : pollUntil visibilityIgnored polls with
        | ok u => simp [wait_to_be_visible, readDriver, hp]
        | error e =>
          by_cases hk : e.kind = ExcKind.timeout <;>
            simp [wait_to_be_visible, readDriver, hp, hk]
  · intro e rest hm
    simp [pollUntil, hm]

/-- C7, witness: at a live instance with an empty poll trace, the
characterization and the continue-polling law at a not-found condition. -/
theorem spec_C7_wait_visible_never_raises_witness :
    (wait_to_be_visible stLive1 [] = Except.ok true ↔
      pollUntil visibilityIgnored ([] : List (Except PyExc (Option Unit)))
        = Except.ok ()) ∧
    pollUntil visibilityIgnored
        (Except.error noSuchErr :: ([] : List (Except PyExc (Option Unit))))
      = pollUntil visibilityIgnored ([] : List (Except PyExc (Option Unit))) :=
  ⟨(spec_C7_wait_visible_never_raises.2.2.1 stLive1 []).2 (by decide),
    spec_C7_wait_visible_never_raises.2.2.2 noSuchErr [] (by decide)⟩

/-- C6: for `wait_for_element` and `wait_for_button_clickable` (default
timeout 120 s) on a live instance, under nominal DOM observations (each poll
either returns a condition value or raises the not-found condition), there
are only two outcomes: if the element becomes visible (respectively
clickable) within the trace both return that element, and if it never does,
both fail with a `NoSuchElementException` that wraps the underlying
`TimeoutException` cause; the two cases are exhaustive. -/
theorem spec_C6_wait_dichotomy :
    waitForElementDefaultTimeout = 120 ∧
    waitForButtonClickableDefaultTimeout = 120 ∧
    ∀ (st : ProviderState) (d : Nat)
      (polls : List (Except PyExc (Option Element))),
      st.driver = DriverAttr.live d →
      (∀ s ∈ polls, (∃ v, s = Except.ok v) ∨
        ∃ e, s = Except.error e ∧ e.kind = ExcKind.noSuchElement) →
      ((∃ s ∈ polls, ∃ a, s = Except.ok (some a)) →
        ∃ el, wait_for_element st polls = Except.ok el ∧
          wait_for_button_clickable st polls = Except.ok el) ∧
      ((∀ s ∈ polls, ∀ a, s ≠ Except.ok (some a)) →
        wait_for_element st polls =
            Except.error ⟨ExcKind.noSuchElement, some ExcKind.timeout⟩ ∧
          wait_for_button_clickable st polls =
            Except.error ⟨ExcKind.noSuchElement, some ExcKind.timeout⟩) ∧
      ((∃ s ∈ polls, ∃ a, s = Except.ok (some a)) ∨
        (∀ s ∈ polls, ∀ a, s ≠ Except.ok (some a))) := by
  refine ⟨rfl, rfl, ?_⟩
  intro st d polls hd hnom
  obtain ⟨dr⟩ := st
  simp only [ProviderState.mk.injEq] at hd
  subst hd
  refine ⟨?_, ?_, ?_⟩
  · intro ht
    obtain ⟨a, ha⟩ := pollUntil_nominal_ok polls hnom ht
    exact ⟨a, by simp [wait_for_element, readDriver, ha],
      by simp [wait_for_button_clickable, readDriver, ha]⟩
  · intro hno
    have ha := pollUntil_nominal_timeout polls hnom hno
    exact ⟨by simp [wait_for_element, readDriver, ha],
      by simp [wait_for_button_clickable, readDriver, ha]⟩
  · by_cases ht : ∃ s ∈ polls, ∃ a, s = Except.ok (some a)
    · exact Or.inl ht
    · refine Or.inr ?_
      intro s hs a hsa
      exact ht ⟨s, hs, a, hsa⟩

/-- C6, witness: a trace whose single poll observes the element. -/
theorem spec_C6_wait_dichotomy_witness :
    ∃ el, wait_for_element stLive1 [Except.ok (some (⟨9⟩ : Element))]
        = Except.ok el ∧
      wait_for_button_clickable stLive1 [Except.ok (some (⟨9⟩ : Element))]
        = Except.ok el :=
  (spec_C6_wait_dichotomy.2.2 stLive1 1 [Except.ok (some ⟨9⟩)] rfl
      (by intro s hs
          rcases List.mem_singleton.mp hs with rfl
          exact Or.inl ⟨some ⟨9⟩, rfl⟩)).1
    ⟨Except.ok (some ⟨9⟩), List.mem_singleton.mpr rfl, ⟨9⟩, rfl⟩

/-- C1: no exception escapes `run`.  On every invocation of `Speedtest.run`
(every state constructed by a successful `Speedtest.__init__` holds a live
driver, and every state with an assigned driver attribute qualifies), for
every world and filename, the outcome of `run` is never an escaped
exception — every failure raised inside the interaction sequence is caught
and normalized to an exit code — and `cleanup` is invoked exactly once on
every path out of `run`. -/
theorem spec_C1_run_never_escapes :
    (∀ (ld : Except PyExc Nat) (w : World) (st : ProviderState),
      speedtestInit ld w = Except.ok st → ∃ d, st.driver = DriverAttr.live d) ∧
    ∀ (st : ProviderState) (w : World) (fn : String),
      st.driver ≠ DriverAttr.unset →
      Outcome.isExc (run st w fn).1 = false ∧
      ((run st w fn).2.2).countP Ev.isCleanupCall = 1 := by
  constructor
  · intro ld w st hok
    cases ld with
    | error e => simp [speedtestInit, providerInit, readDriver] at hok
    | ok d =>
      cases hg : w.getPage with
      | error e2 =>
        simp [speedtestInit, providerInit, readDriver, hg] at hok
      | ok u =>
        simp [speedtestInit, providerInit, readDriver, hg] at hok
        exact ⟨d, by rw [← hok]⟩
  · intro st w fn h
    constructor
    · exact cleanup_isExc st (exitCodeOf (runTryBlock st w fn).1) h
    · have h1 : ((runTryBlock st w fn).2).countP Ev.isCleanupCall = 0 := by
        rw [List.countP_eq_zero]
        intro ev hev
        simp [runTry_evs st w fn ev hev]
      have h2 := cleanup_count st (exitCodeOf (runTryBlock st w fn).1)
      show ((runTryBlock st w fn).2
          ++ (cleanup st (exitCodeOf (runTryBlock st w fn).1)).2.2).countP
          Ev.isCleanupCall = 1
      rw [List.countP_append, h1, h2]

/-- C1, witness: a successful construction yields a live driver, and a run
in the nominal world neither escapes nor misses its single cleanup. -/
theorem spec_C1_run_never_escapes_witness :
    (∃ d, (⟨DriverAttr.live 3⟩ : ProviderState).driver = DriverAttr.live d) ∧
    Outcome.isExc (run stLive1 wNominal runDefaultFilename).1 = false ∧
    ((run stLive1 wNominal runDefaultFilename).2.2).countP
        Ev.isCleanupCall = 1 :=
  ⟨spec_C1_run_never_escapes.1 (Except.ok 3) wNominal ⟨DriverAttr.live 3⟩ rfl,
    spec_C1_run_never_escapes.2 stLive1 wNominal runDefaultFilename
      (by decide)⟩

/-- C4: on a live instance whose pre-steps behave (setup and notification
dismissal complete, the start control becomes clickable and its click
succeeds), if the results element never becomes visible within the bounded
poll trace, then `run` writes no screenshot file, and the resulting exit
code is -1: `cleanup` is invoked with -1 and terminates the process with
that code. -/
theorem spec_C4_no_results_no_screenshot :
    ∀ (st : ProviderState) (w : World) (d : Nat) (fn : String),
      st.driver = DriverAttr.live d →
      (setup st w).1 = Except.ok () →
      (dismiss_notification st w).1 = Except.ok () →
      (∃ b, pollUntil defaultIgnored w.startPolls = Except.ok b) →
      w.startClick = Except.ok () →
      (∀ s ∈ w.resultsPolls, ∀ el : Element, s ≠ Except.ok (some el)) →
      (run st w fn).1 = Outcome.exited (-1) ∧
      ((run st w fn).2.2).countP Ev.isShot = 0 ∧
      Ev.cleanupCalled (-1) ∈ (run st w fn).2.2 := by
  intro st w d fn hd hsu hdi hstart hsc hres
  obtain ⟨b, hb⟩ := hstart
  obtain ⟨dr⟩ := st
  simp only [ProviderState.mk.injEq] at hd
  subst hd
  have hwb : wait_for_button_clickable ⟨DriverAttr.live d⟩ w.startPolls
      = Except.ok b := by
    simp [wait_for_button_clickable, readDriver, hb]
  obtain ⟨e, he⟩ := pollUntil_no_truthy defaultIgnored w.resultsPolls hres
  have hwe : ∃ e2, wait_for_element ⟨DriverAttr.live d⟩ w.resultsPolls
      = Except.error e2 := by
    by_cases hk : e.kind = ExcKind.timeout
    · exact ⟨⟨ExcKind.noSuchElement, some ExcKind.timeout⟩,
        by simp [wait_for_element, readDriver, he, hk]⟩
    · exact ⟨e, by simp [wait_for_element, readDriver, he, hk]⟩
  obtain ⟨e2, he2⟩ := hwe
  have htr : runTryBlock ⟨DriverAttr.live d⟩ w fn
      = (Except.error e2, (setup ⟨DriverAttr.live d⟩ w).2.2
          ++ (dismiss_notification ⟨DriverAttr.live d⟩ w).2.2
          ++ [Ev.clicked b]) := by
    simp only [runTryBlock, hsu, hdi, hwb, hsc, he2]
  have hcode : exitCodeOf (Except.error e2) = -1 := by
    simp [exitCodeOf]
  have hcl : cleanup ⟨DriverAttr.live d⟩ (-1)
      = (Outcome.exited (-1), ⟨DriverAttr.null⟩,
          [Ev.cleanupCalled (-1), Ev.closed d, Ev.quitted d]) := by
    norm_num [cleanup, readDriver]
  have hrun : run ⟨DriverAttr.live d⟩ w fn
      = (Outcome.exited (-1), ⟨DriverAttr.null⟩,
          ((setup ⟨DriverAttr.live d⟩ w).2.2
            ++ (dismiss_notification ⟨DriverAttr.live d⟩ w).2.2
            ++ [Ev.clicked b])
          ++ [Ev.cleanupCalled (-1), Ev.closed d, Ev.quitted d]) := by
    simp only [run, htr, hcode, hcl]
  rw [hrun]
  refine ⟨rfl, ?_, ?_⟩
  · rw [List.countP_eq_zero]
    intro ev hev
    rcases List.mem_append.mp hev with h5 | h5
    · rcases List.mem_append.mp h5 with h6 | h6
      · rcases List.mem_append.mp h6 with h7 | h7
        · obtain ⟨bb, rfl⟩ := setupBody_evs ⟨DriverAttr.live d⟩ w ev h7
          simp [Ev.isShot]
        · obtain ⟨bb, rfl⟩ := dismissBody_evs ⟨DriverAttr.live d⟩ w ev h7
          simp [Ev.isShot]
      · rcases List.mem_singleton.mp h6 with rfl
        simp [Ev.isShot]
    · simp only [List.mem_cons, List.mem_singleton] at h5
      rcases h5 with rfl | rfl | h5
      · simp [Ev.isShot]
      · simp [Ev.isShot]
      · rcases h5 with rfl | h5
        · simp [Ev.isShot]
        · simp at h5
  · simp

/-- C4, witness: the nominal world with an empty results poll trace. -/
theorem spec_C4_no_results_no_screenshot_witness :
    (run stLive1 wNoResults runDefaultFilename).1 = Outcome.exited (-1) ∧
    ((run stLive1 wNoResults runDefaultFilename).2.2).countP Ev.isShot = 0 ∧
    Ev.cleanupCalled (-1) ∈ (run stLive1 wNoResults runDefaultFilename).2.2 :=
  spec_C4_no_results_no_screenshot stLive1 wNoResults 1 runDefaultFilename
    rfl rfl rfl ⟨⟨13⟩, rfl⟩ rfl (by simp [wNoResults, wNominal])

/-- C5: on a live instance whose pre-steps behave, if the start control
becomes clickable and the results element becomes visible within their poll
traces and the capture call succeeds, then `run` captures a screenshot of
exactly the results element to the caller-supplied filename (the only
screenshot of the run) and then calls `cleanup(0)`, which closes and quits
the driver and clears the handle without terminating the process. -/
theorem spec_C5_happy_path_screenshot :
    ∀ (st : ProviderState) (w : World) (d : Nat) (resEl : Element)
      (fn : String),
      st.driver = DriverAttr.live d →
      (setup st w).1 = Except.ok () →
      (dismiss_notification st w).1 = Except.ok () →
      (∃ b, pollUntil defaultIgnored w.startPolls = Except.ok b) →
      w.startClick = Except.ok () →
      pollUntil defaultIgnored w.resultsPolls = Except.ok resEl →
      w.screenshotCall = Except.ok () →
      (run st w fn).1 = Outcome.ok () ∧
      (run st w fn).2.1 = ⟨DriverAttr.null⟩ ∧
      ((run st w fn).2.2).filter Ev.isShot = [Ev.screenshot resEl fn] ∧
      Ev.cleanupCalled 0 ∈ (run st w fn).2.2 ∧
      Ev.closed d ∈ (run st w fn).2.2 ∧
      Ev.quitted d ∈ (run st w fn).2.2 := by
  intro st w d resEl fn hd hsu hdi hstart hsc hres hshot
  obtain ⟨b, hb⟩ := hstart
  obtain ⟨dr⟩ := st
  simp only [ProviderState.mk.injEq] at hd
  subst hd
  have hwb : wait_for_button_clickable ⟨DriverAttr.live d⟩ w.startPolls
      = Except.ok b := by
    simp [wait_for_button_clickable, readDriver, hb]
  have hwe : wait_for_element ⟨DriverAttr.live d⟩ w.resultsPolls
      = Except.ok resEl := by
    simp [wait_for_element, readDriver, hres]
  have htr : runTryBlock ⟨DriverAttr.live d⟩ w fn
      = (Except.ok (), ((setup ⟨DriverAttr.live d⟩ w).2.2
          ++ (dismiss_notification ⟨DriverAttr.live d⟩ w).2.2
          ++ [Ev.clicked b]) ++ [Ev.screenshot resEl fn]) := by
    simp only [runTryBlock, hsu, hdi, hwb, hsc, hwe, hshot]
  have hcl : cleanup ⟨DriverAttr.live d⟩ 0
      = (Outcome.ok (), ⟨DriverAttr.null⟩,
          [Ev.cleanupCalled 0, Ev.closed d, Ev.quitted d]) := by
    simp [cleanup, readDriver]
  have hrun : run ⟨DriverAttr.live d⟩ w fn
      = (Outcome.ok (), ⟨DriverAttr.null⟩,
          (((setup ⟨DriverAttr.live d⟩ w).2.2
            ++ (dismiss_notification ⟨DriverAttr.live d⟩ w).2.2
            ++ [Ev.clicked b]) ++ [Ev.screenshot resEl fn])
          ++ [Ev.cleanupCalled 0, Ev.closed d, Ev.quitted d]) := by
    simp only [run, htr, exitCodeOf, hcl]
  have hf1 : ((setup ⟨DriverAttr.live d⟩ w).2.2).filter Ev.isShot = [] := by
    rw [List.filter_eq_nil_iff]
    intro a ha
    obtain ⟨bb, rfl⟩ := setupBody_evs ⟨DriverAttr.live d⟩ w a ha
    simp [Ev.isShot]
  have hf2 : ((dismiss_notification ⟨DriverAttr.live d⟩ w).2.2).filter
      Ev.isShot = [] := by
    rw [List.filter_eq_nil_iff]
    intro a ha
    obtain ⟨bb, rfl⟩ := dismissBody_evs ⟨DriverAttr.live d⟩ w a ha
    simp [Ev.isShot]
  rw [hrun]
  refine ⟨rfl, rfl, ?_, by simp, by simp, by simp⟩
  simp [List.filter_append, hf1, hf2, Ev.isShot, List.filter]

/-- C5, witness: the nominal world, where the screenshot of element 14 is
written to the default filename. -/
theorem spec_C5_happy_path_screenshot_witness :
    (run stLive1 wNominal runDefaultFilename).1 = Outcome.ok () ∧
    (run stLive1 wNominal runDefaultFilename).2.1 = ⟨DriverAttr.null⟩ ∧
    ((run stLive1 wNominal runDefaultFilename).2.2).filter Ev.isShot
      = [Ev.screenshot ⟨14⟩ runDefaultFilename] ∧
    Ev.cleanupCalled 0 ∈ (run stLive1 wNominal runDefaultFilename).2.2 ∧
    Ev.closed 1 ∈ (run stLive1 wNominal runDefaultFilename).2.2 ∧
    Ev.quitted 1 ∈ (run stLive1 wNominal runDefaultFilename).2.2 :=
  spec_C5_happy_path_screenshot stLive1 wNominal 1 ⟨14⟩ runDefaultFilename
    rfl rfl rfl ⟨⟨13⟩, rfl⟩ rfl rfl rfl

end SpeedSleuth
